import Mathlib

/-!
# Verification of the `TimerThread` session countdown engine (`vr_timer.py`)

Shallow embedding of the `TimerThread` class from `src/vr_timer.py`:

* the mutable state of a `TimerThread` instance becomes the record
  `TimerThread` below (`total_seconds`, `remaining_seconds`, `running`,
  `paused`, `_stop_event` — the last one modelled as the Bool `stop_event`);
* the constructor `__init__`, and the control methods `pause`, `add_time`
  and `stop`, become pure state transformers;
* the background `run` method becomes a fuel-based recursion `runFrom`
  over the state.  Control methods called concurrently from the UI thread
  are modelled as a *script*: a list of command batches, one batch applied
  at each suspension point of the loop (the top of each `while` iteration,
  i.e. right before the loop condition is re-checked).  The observer
  callbacks `on_tick`, `on_warning`, `on_finish` become an emitted list of
  `Event`s, in invocation order.

Python integers are unbounded, so counters are `Int`.  The duration
argument is a Python number (the UI passes floats such as
`minutes + buffer/60`), modelled as `ℚ`; Python's `int(...)` truncates
toward zero, modelled by `pyInt`.
-/

/-- Python's `int(q)` on a number: truncation toward zero. -/
def pyInt (q : ℚ) : ℤ :=
  if 0 ≤ q then ⌊q⌋ else ⌈q⌉

/-- The state of a `TimerThread` instance (`vr_timer.py`, lines 130-140).
`stop_event` models `self._stop_event` (a `threading.Event`): `true` iff
the event has been `set()`. -/
structure TimerThread where
  total_seconds : ℤ
  remaining_seconds : ℤ
  running : Bool
  paused : Bool
  stop_event : Bool
deriving DecidableEq, Repr

/-- `TimerThread.__init__` (lines 130-140): no validation of the duration;
`total_seconds = int(duration_minutes * 60)`, `remaining_seconds` the same,
flags cleared. -/
def TimerThread.init (duration_minutes : ℚ) : TimerThread :=
  { total_seconds := pyInt (duration_minutes * 60)
  , remaining_seconds := pyInt (duration_minutes * 60)
  , running := false
  , paused := false
  , stop_event := false }

/-- `TimerThread.pause` (lines 170-171): `self.paused = not self.paused`. -/
def TimerThread.pause (t : TimerThread) : TimerThread :=
  { t with paused := !t.paused }

/-- `TimerThread.add_time` (lines 173-175):
`self.remaining_seconds += minutes * 60;
 self.total_seconds = max(self.total_seconds, self.remaining_seconds)`. -/
def TimerThread.add_time (t : TimerThread) (minutes : ℤ) : TimerThread :=
  { t with
    remaining_seconds := t.remaining_seconds + minutes * 60
  , total_seconds := max t.total_seconds (t.remaining_seconds + minutes * 60) }

/-- `TimerThread.stop` (lines 177-178): `self._stop_event.set()`. -/
def TimerThread.stop (t : TimerThread) : TimerThread :=
  { t with stop_event := true }

/-- An observer callback invocation: `on_tick(remaining, total)`,
`on_warning(minutes)` (the source passes minutes: `self.on_warning(15)`,
`self.on_warning(5)`), or `on_finish()`. -/
inductive Event where
  | tick : ℤ → ℤ → Event
  | warning : ℤ → Event
  | finish : Event
deriving DecidableEq, Repr

/-- A control-method call arriving from another thread at a suspension
point of the loop. -/
inductive Cmd where
  | pause : Cmd
  | addTime : ℤ → Cmd
  | stop : Cmd
deriving DecidableEq, Repr

/-- Apply one concurrently arriving control call. -/
def applyCmd (t : TimerThread) : Cmd → TimerThread
  | Cmd.pause => t.pause
  | Cmd.addTime m => t.add_time m
  | Cmd.stop => t.stop

/-- Apply a batch of control calls in order. -/
def applyCmds (t : TimerThread) : List Cmd → TimerThread
  | [] => t
  | c :: cs => applyCmds (applyCmd t c) cs

/-- The warning events emitted at the top of one non-paused loop iteration
(lines 149-155): `on_warning(15)` exactly when `remaining_seconds == 15*60`,
then `on_warning(5)` exactly when `remaining_seconds == 5*60`. -/
def warnEvents (t : TimerThread) : List Event :=
  (if t.remaining_seconds = 15 * 60 then [Event.warning 15] else [])
    ++ (if t.remaining_seconds = 5 * 60 then [Event.warning 5] else [])

/-- The body of one non-paused loop iteration (lines 149-161): warning
checks, `on_tick(remaining, total)`, sleep one second, decrement. -/
def loopIter (t : TimerThread) : TimerThread × List Event :=
  ({ t with remaining_seconds := t.remaining_seconds - 1 },
   warnEvents t ++ [Event.tick t.remaining_seconds t.total_seconds])

/-- The `while` loop of `TimerThread.run` plus its epilogue
(lines 144-168).  `fuel` bounds the number of loop iterations examined
(the real loop can spin forever while paused); `none` means the fuel ran
out before the loop exited.  Each recursive step first applies the batch
of concurrently arriving control calls for this suspension point, then
re-checks the loop condition `remaining_seconds > 0 and not
_stop_event.is_set()`:

* condition holds and `paused`: `time.sleep(0.1); continue` — no events,
  no state change;
* condition holds, not paused: one `loopIter`, then the rest of the loop;
* condition fails and the stop event is not set: natural completion —
  `on_tick(0, total_seconds)`, `on_finish()`, `running = False`;
* condition fails, stop event set: cancellation — no further events,
  `running = False`. -/
def runFrom : ℕ → TimerThread → List (List Cmd) → Option (TimerThread × List Event)
  | 0, _, _ => none
  | Nat.succ fuel, t, script =>
    let t1 := applyCmds t (script.headD [])
    if 0 < t1.remaining_seconds ∧ t1.stop_event = false then
      if t1.paused then
        runFrom fuel t1 script.tail
      else
        (runFrom fuel (loopIter t1).1 script.tail).map
          (fun p => (p.1, (loopIter t1).2 ++ p.2))
    else if t1.stop_event = false then
      some ({ t1 with running := false },
            [Event.tick 0 t1.total_seconds, Event.finish])
    else
      some ({ t1 with running := false }, [])

/-- `TimerThread.run` (line 142-143 then the loop): sets
`self.running = True` and enters the loop. -/
def TimerThread.run (fuel : ℕ) (t : TimerThread) (script : List (List Cmd)) :
    Option (TimerThread × List Event) :=
  runFrom fuel { t with running := true } script

/-- Is this event an `on_finish()` call? -/
def isFinish : Event → Bool
  | Event.finish => true
  | _ => false

/-- Is this event an `on_tick` call with `remaining = 0`? -/
def isTickZero : Event → Bool
  | Event.tick r _ => decide (r = 0)
  | _ => false

/-- Is this event an `on_tick` call? -/
def isTick : Event → Bool
  | Event.tick _ _ => true
  | _ => false

/-- Is this event an `on_warning(m)` call for the given `m`? -/
def isWarnOf (m : ℤ) : Event → Bool
  | Event.warning k => decide (k = m)
  | _ => false

/-- Is this event an `on_warning` call? -/
def isWarn : Event → Bool
  | Event.warning _ => true
  | _ => false

/-- Number of `on_finish()` invocations in a trace. -/
def countFinish (evs : List Event) : ℕ := evs.countP isFinish

/-- Number of `on_tick(0, _)` invocations in a trace. -/
def countTick0 (evs : List Event) : ℕ := evs.countP isTickZero

/-- Number of `on_tick` invocations in a trace. -/
def countTick (evs : List Event) : ℕ := evs.countP isTick

/-- Number of `on_warning(m)` invocations in a trace. -/
def countWarn (m : ℤ) (evs : List Event) : ℕ := evs.countP (isWarnOf m)

/-- Number of `on_warning` invocations (any argument) in a trace. -/
def countWarnAll (evs : List Event) : ℕ := evs.countP isWarn

/-- Spec-side ghost counter for the warning-once analysis (`m` is the
minutes value passed to `on_warning`): the number of non-paused loop
iterations whose `remaining_seconds` equals `m * 60`, along the very same
fuel/script recursion as `runFrom`. -/
def warnIters (m : ℤ) : ℕ → TimerThread → List (List Cmd) → Option ℕ
  | 0, _, _ => none
  | Nat.succ fuel, t, script =>
    let t1 := applyCmds t (script.headD [])
    if 0 < t1.remaining_seconds ∧ t1.stop_event = false then
      if t1.paused then
        warnIters m fuel t1 script.tail
      else
        (warnIters m fuel (loopIter t1).1 script.tail).map
          (fun n => (if t1.remaining_seconds = m * 60 then 1 else 0) + n)
    else
      some 0

/-- Scenario C schedule: five undisturbed iterations (600 → 595), then
`add_time(5)` at the sixth suspension point, then `stop()`. -/
def scenarioCScript : List (List Cmd) :=
  [[], [], [], [], [], [Cmd.addTime 5], [Cmd.stop]]

/-- An engine state mid-countdown of a 10-minute session with
`remaining_seconds == 595` (reached after five loop iterations). -/
def state595 : TimerThread :=
  { total_seconds := 600, remaining_seconds := 595,
    running := true, paused := false, stop_event := false }

/-- A running engine state at the 15-minute warning threshold. -/
def state900 : TimerThread :=
  { total_seconds := 900, remaining_seconds := 900,
    running := true, paused := false, stop_event := false }

/-- A running engine state at the 5-minute warning threshold. -/
def state300 : TimerThread :=
  { total_seconds := 360, remaining_seconds := 300,
    running := true, paused := false, stop_event := false }

/-- Schedule for the warning re-fire experiment: 61 undisturbed
iterations (301 → 240, firing `on_warning(5)` at 300), then `add_time(1)`
raising `remaining_seconds` from 240 back to exactly 300, then `stop()`. -/
def extendToExactThresholdScript : List (List Cmd) :=
  List.replicate 61 [] ++ [[Cmd.addTime 1], [Cmd.stop]]

/-- The observer trace of an undisturbed 1-minute session:
61 ticks counting 60 down to 0, then the finish callback. -/
def oneMinuteTrace : List Event :=
  (List.range 61).map (fun i => Event.tick (60 - (i : ℤ)) 60) ++ [Event.finish]

/-- The observer trace of an undisturbed 6-minute session: ticks 360 down
to 301, the 5-minute warning, ticks 300 down to 0, then finish. -/
def sixMinuteTrace : List Event :=
  (List.range 60).map (fun i => Event.tick (360 - (i : ℤ)) 360)
    ++ [Event.warning 5]
    ++ (List.range 301).map (fun i => Event.tick (300 - (i : ℤ)) 360)
    ++ [Event.finish]

/-- Fresh engine state of a 1-minute session (what `init 1` builds). -/
def st60 : TimerThread :=
  { total_seconds := 60, remaining_seconds := 60,
    running := false, paused := false, stop_event := false }

/-- Fresh engine state of a 6-minute session (what `init 6` builds). -/
def st360 : TimerThread :=
  { total_seconds := 360, remaining_seconds := 360,
    running := false, paused := false, stop_event := false }

/-- Fresh engine state of a 301-second session (what `init (301/60)`
builds). -/
def st301 : TimerThread :=
  { total_seconds := 301, remaining_seconds := 301,
    running := false, paused := false, stop_event := false }

/-- Fresh engine state of a 10-minute session (what `init 10` builds). -/
def st600 : TimerThread :=
  { total_seconds := 600, remaining_seconds := 600,
    running := false, paused := false, stop_event := false }

/-- Final state of the undisturbed 1-minute session. -/
def oneMinuteFinal : TimerThread :=
  { total_seconds := 60, remaining_seconds := 0,
    running := false, paused := false, stop_event := false }

/-- Final state of the undisturbed 6-minute session. -/
def sixMinuteFinal : TimerThread :=
  { total_seconds := 360, remaining_seconds := 0,
    running := false, paused := false, stop_event := false }

/-- Final state of the warning re-fire experiment: the extension kept
`total_seconds` at 301 (`max 301 300`), the re-fire iteration decremented
300 to 299, and the `stop()` at the next suspension point cancelled the
run. -/
def extendExactFinal : TimerThread :=
  { total_seconds := 301, remaining_seconds := 299,
    running := false, paused := false, stop_event := true }

/-- The observer trace of the warning re-fire experiment: tick at 301,
warning + tick at 300, ticks 299 down to 241 (so `remaining_seconds`
reached 240), then — after `add_time(1)` raised 240 to exactly 300 — the
5-minute warning fires a second time, followed by its tick. -/
def extendExactTrace : List Event :=
  [Event.tick 301 301, Event.warning 5]
    ++ (List.range 60).map (fun i => Event.tick (300 - (i : ℤ)) 301)
    ++ [Event.warning 5, Event.tick 300 301]

/-- A mid-run paused engine state. -/
def statePaused : TimerThread :=
  { total_seconds := 60, remaining_seconds := 30,
    running := true, paused := true, stop_event := false }

/-! ## Helper lemmas -/

theorem countFinish_append (a b : List Event) :
    countFinish (a ++ b) = countFinish a + countFinish b := by
  simp [countFinish, List.countP_append]

theorem countTick0_append (a b : List Event) :
    countTick0 (a ++ b) = countTick0 a + countTick0 b := by
  simp [countTick0, List.countP_append]

theorem countWarn_append (m : ℤ) (a b : List Event) :
    countWarn m (a ++ b) = countWarn m a + countWarn m b := by
  simp [countWarn, List.countP_append]

theorem countFinish_loopIter (t : TimerThread) :
    countFinish (loopIter t).2 = 0 := by
  by_cases h15 : t.remaining_seconds = 15 * 60 <;>
    by_cases h5 : t.remaining_seconds = 5 * 60 <;>
      simp [loopIter, warnEvents, countFinish, isFinish, h15, h5]

theorem countTick0_loopIter (t : TimerThread) (h : t.remaining_seconds ≠ 0) :
    countTick0 (loopIter t).2 = 0 := by
  by_cases h15 : t.remaining_seconds = 15 * 60 <;>
    by_cases h5 : t.remaining_seconds = 5 * 60 <;>
      simp [loopIter, warnEvents, countTick0, isTickZero, h15, h5, h]

theorem countWarn_loopIter (t : TimerThread) (m : ℤ) (hm : m = 15 ∨ m = 5) :
    countWarn m (loopIter t).2
      = if t.remaining_seconds = m * 60 then 1 else 0 := by
  rcases hm with rfl | rfl <;>
    by_cases h15 : t.remaining_seconds = 15 * 60 <;>
      by_cases h5 : t.remaining_seconds = 5 * 60 <;>
        simp_all [loopIter, warnEvents, countWarn, isWarnOf]

theorem countWarn_natural_exit (m T : ℤ) :
    countWarn m [Event.tick 0 T, Event.finish] = 0 := by
  simp [countWarn, isWarnOf]

/-! ## Claims -/

/-- C3: for every engine state and every extension amount `m > 0`,
`add_time(m)` yields `remaining_seconds' = remaining_seconds + m*60` and
`total_seconds' = max(total_seconds, remaining_seconds')`, and changes
nothing else (`running`, `paused` and the stop event are untouched). -/
theorem add_time_spec (t : TimerThread) (m : ℤ) (hm : 0 < m) :
    (t.add_time m).remaining_seconds = t.remaining_seconds + m * 60 ∧
    (t.add_time m).total_seconds
      = max t.total_seconds ((t.add_time m).remaining_seconds) ∧
    (t.add_time m).running = t.running ∧
    (t.add_time m).paused = t.paused ∧
    (t.add_time m).stop_event = t.stop_event :=
  ⟨rfl, rfl, rfl, rfl, rfl⟩

theorem add_time_spec_witness :
    (0 < (5 : ℤ)) ∧
    (st600.add_time 5).remaining_seconds = st600.remaining_seconds + 5 * 60 ∧
    (st600.add_time 5).total_seconds
      = max st600.total_seconds ((st600.add_time 5).remaining_seconds) :=
  ⟨by decide, (add_time_spec st600 5 (by decide)).1,
    (add_time_spec st600 5 (by decide)).2.1⟩

/-- Counterexample to C4: running a 10-minute engine for five seconds and
then extending by 5 minutes (Scenario C: `extend(5)` at
`remaining_seconds == 595`) leaves `total_seconds = max(600, 895) = 895`,
not the 900 the claim states.  The full run under this schedule is shown,
including the post-extension tick `(895, 895)`. -/
theorem scenario_c_total_is_895_not_900 :
    TimerThread.init 10 = st600 ∧
    TimerThread.run 10 st600 scenarioCScript
      = some ({ total_seconds := 895, remaining_seconds := 894,
                running := false, paused := false, stop_event := true },
              [Event.tick 600 600, Event.tick 599 600, Event.tick 598 600,
               Event.tick 597 600, Event.tick 596 600, Event.tick 895 895]) ∧
    (895 : ℤ) ≠ 900 := by
  refine ⟨?_, by decide, by decide⟩
  norm_num [TimerThread.init, pyInt, st600]

/-- C4 (amended): for a 10-minute engine (`total_seconds = 600`), calling
`add_time(5)` at the moment `remaining_seconds == 595` results in
`remaining_seconds == 895` and `total_seconds == max(600, 895) == 895`
(not 900). -/
theorem extend_at_595_spec (t : TimerThread)
    (h1 : t.remaining_seconds = 595) (h2 : t.total_seconds = 600) :
    (t.add_time 5).remaining_seconds = 895 ∧
    (t.add_time 5).total_seconds = 895 := by
  refine ⟨?_, ?_⟩ <;> simp [TimerThread.add_time, h1, h2]

theorem extend_at_595_spec_witness :
    (state595.add_time 5).remaining_seconds = 895 ∧
    (state595.add_time 5).total_seconds = 895 :=
  extend_at_595_spec state595 rfl rfl

/-- C7: in every loop iteration the tick event comes last, and in an
iteration that observes `remaining_seconds` equal to a warning threshold
(15·60 or 5·60) the warning event is emitted strictly before that
iteration's tick event. -/
theorem warning_before_tick (t : TimerThread) :
    ((loopIter t).2).getLast?
      = some (Event.tick t.remaining_seconds t.total_seconds) ∧
    (t.remaining_seconds = 15 * 60 →
      (loopIter t).2
        = [Event.warning 15,
           Event.tick t.remaining_seconds t.total_seconds]) ∧
    (t.remaining_seconds = 5 * 60 →
      (loopIter t).2
        = [Event.warning 5,
           Event.tick t.remaining_seconds t.total_seconds]) := by
  refine ⟨?_, ?_, ?_⟩
  · by_cases h15 : t.remaining_seconds = 15 * 60 <;>
      by_cases h5 : t.remaining_seconds = 5 * 60 <;>
        simp [loopIter, warnEvents, h15, h5]
  · intro h
    have h5 : ¬ t.remaining_seconds = 5 * 60 := by omega
    simp [loopIter, warnEvents, h, h5]
  · intro h
    have h15 : ¬ t.remaining_seconds = 15 * 60 := by omega
    simp [loopIter, warnEvents, h, h15]

theorem warning_before_tick_witness :
    (loopIter state900).2 = [Event.warning 15, Event.tick 900 900] ∧
    (loopIter state300).2 = [Event.warning 5, Event.tick 300 360] := by
  refine ⟨?_, ?_⟩
  · exact (warning_before_tick state900).2.1 (by decide)
  · exact (warning_before_tick state300).2.2 (by decide)

/-- C10: `stop()` only sets the stop signal — `remaining_seconds`,
`total_seconds`, `paused` and `running` are left exactly as they were, so
the last countdown values remain readable after cancellation — and a
second `stop()` changes nothing further (idempotence). -/
theorem stop_frame (t : TimerThread) :
    (t.stop).remaining_seconds = t.remaining_seconds ∧
    (t.stop).total_seconds = t.total_seconds ∧
    (t.stop).paused = t.paused ∧
    (t.stop).running = t.running ∧
    (t.stop).stop_event = true ∧
    (t.stop).stop = t.stop :=
  ⟨rfl, rfl, rfl, rfl, rfl, rfl⟩

/-- C1: whenever the progression loop terminates, then — if the stop
event was never observed (natural completion, `remaining_seconds`
reached 0) — the event trace ends with exactly one final tick carrying
`remaining = 0` immediately followed by exactly one finish event (no
earlier finish, no earlier zero-remaining tick); and if the loop exited
because the stop event was observed (cancellation), the trace contains no
finish event and no zero-remaining tick at all. -/
theorem run_completion_events :
    ∀ (fuel : ℕ) (t : TimerThread) (script : List (List Cmd))
      (u : TimerThread) (evs : List Event),
      runFrom fuel t script = some (u, evs) →
      (u.stop_event = false →
        ∃ pre, evs = pre ++ [Event.tick 0 u.total_seconds, Event.finish] ∧
          countFinish pre = 0 ∧ countTick0 pre = 0) ∧
      (u.stop_event = true → countFinish evs = 0 ∧ countTick0 evs = 0) := by
  intro fuel
  induction fuel with
  | zero =>
    intro t script u evs h
    simp [runFrom] at h
  | succ n ih =>
    intro t script u evs h
    simp only [runFrom] at h
    generalize hT : applyCmds t (script.headD []) = t1 at h
    split at h
    next hcond =>
      split at h
      next hp =>
        exact ih t1 script.tail u evs h
      next hp =>
        rcases Option.map_eq_some'.mp h with ⟨⟨v, evs2⟩, hrec, hfe⟩
        have hfe2 : (v, (loopIter t1).2 ++ evs2) = (u, evs) := hfe
        injection hfe2 with h1 h2
        subst h1
        subst h2
        have IH := ih (loopIter t1).1 script.tail v evs2 hrec
        constructor
        · intro hstop
          rcases IH.1 hstop with ⟨pre, hpre, hf, ht0⟩
          refine ⟨(loopIter t1).2 ++ pre, ?_, ?_, ?_⟩
          · rw [hpre, List.append_assoc]
          · rw [countFinish_append, countFinish_loopIter, hf]
          · rw [countTick0_append, countTick0_loopIter t1 (by omega), ht0]
        · intro hstop
          have h2 := IH.2 hstop
          constructor
          · rw [countFinish_append, countFinish_loopIter, h2.1]
          · rw [countTick0_append, countTick0_loopIter t1 (by omega), h2.2]
    next hcond =>
      split at h
      next hs =>
        injection h with h'
        injection h' with h1 h2
        subst h1
        subst h2
        constructor
        · intro _
          exact ⟨[], by simp, rfl, rfl⟩
        · intro hstop
          simp [hs] at hstop
      next hs =>
        injection h with h'
        injection h' with h1 h2
        subst h1
        subst h2
        constructor
        · intro hstop
          simp at hs
          simp [hs] at hstop
        · intro _
          exact ⟨rfl, rfl⟩

theorem run_completion_events_witness :
    ∃ pre, [Event.tick 1 1, Event.tick 0 1, Event.finish]
        = pre ++ [Event.tick 0 1, Event.finish] ∧
      countFinish pre = 0 ∧ countTick0 pre = 0 := by
  have h := run_completion_events 3
      { total_seconds := 1, remaining_seconds := 1,
        running := true, paused := false, stop_event := false } []
      { total_seconds := 1, remaining_seconds := 0,
        running := false, paused := false, stop_event := false }
      [Event.tick 1 1, Event.tick 0 1, Event.finish] (by decide)
  exact h.1 rfl

set_option maxRecDepth 1000000 in
/-- Counterexample to C2 ("extending to exactly t does not restore
eligibility"): in a 301-second session, `on_warning(5)` fires at the
crossing of 300; the countdown then reaches 240 (last tick 241), and the
single `add_time(1)` raises `remaining_seconds` from 240 to *exactly*
300 — never strictly above the threshold — yet the very next iteration
fires `on_warning(5)` a second time (the code keeps no `firedWarnings`
memory). -/
theorem warning_refires_on_extend_to_exact_threshold :
    TimerThread.init (301/60 : ℚ) = st301 ∧
    TimerThread.run 70 st301 extendToExactThresholdScript
      = some (extendExactFinal, extendExactTrace) ∧
    countWarn 5 extendExactTrace = 2 ∧
    extendToExactThresholdScript.flatten = [Cmd.addTime 1, Cmd.stop] :=
  ⟨by norm_num [TimerThread.init, pyInt, st301], by decide, by decide, by decide⟩

/-- Claim C2 (amended): for each threshold `t ∈ {15·60, 5·60}`, the
warning for `t` fires exactly once in every non-paused loop iteration
that observes `remaining_seconds == t`, and never otherwise — formally,
the number of `on_warning(t/60)` events in any terminating run equals the
number of such iterations (the ghost counter `warnIters`).  Hence it
fires once per continuous crossing of `t` from above, and becomes
eligible again whenever `remaining_seconds` returns to exactly `t`,
including when an `extend()` raises it to exactly `t` (not only strictly
above). -/
theorem warning_iter_characterization :
    ∀ (m : ℤ), (m = 15 ∨ m = 5) →
    ∀ (fuel : ℕ) (t : TimerThread) (script : List (List Cmd))
      (u : TimerThread) (evs : List Event),
      runFrom fuel t script = some (u, evs) →
      warnIters m fuel t script = some (countWarn m evs) := by
  intro m hm fuel
  induction fuel with
  | zero =>
    intro t script u evs h
    simp [runFrom] at h
  | succ n ih =>
    intro t script u evs h
    simp only [runFrom] at h
    simp only [warnIters]
    generalize hT : applyCmds t (script.headD []) = t1 at h ⊢
    split at h
    next hcond =>
      rw [if_pos hcond]
      split at h
      next hp =>
        rw [if_pos hp]
        exact ih t1 script.tail u evs h
      next hp =>
        rw [if_neg hp]
        rcases Option.map_eq_some'.mp h with ⟨⟨v, evs2⟩, hrec, hfe⟩
        have hfe2 : (v, (loopIter t1).2 ++ evs2) = (u, evs) := hfe
        injection hfe2 with h1 h2
        subst h1
        subst h2
        rw [ih (loopIter t1).1 script.tail v evs2 hrec]
        rw [Option.map_some']
        rw [countWarn_append, countWarn_loopIter t1 m hm]
    next hcond =>
      rw [if_neg hcond]
      split at h
      next hs =>
        injection h with h'
        injection h' with h1 h2
        subst h1
        subst h2
        rw [countWarn_natural_exit]
      next hs =>
        injection h with h'
        injection h' with h1 h2
        subst h1
        subst h2
        rfl

set_option maxRecDepth 1000000 in
theorem warning_iter_characterization_witness :
    warnIters 5 70 st301 extendToExactThresholdScript = some 2 := by
  have h := warning_iter_characterization 5 (Or.inr rfl) 70 st301
      extendToExactThresholdScript extendExactFinal extendExactTrace (by decide)
  rw [h]
  decide

set_option maxRecDepth 1000000 in
/-- Counterexample to C5: the undisturbed 1-minute session emits 61
`on_tick` calls (the first one carries `remaining = 60`, the last one
`remaining = 0`), not 60 calls descending 59 → 0. -/
theorem one_minute_run_61_ticks_not_60 :
    TimerThread.init 1 = st60 ∧
    TimerThread.run 70 st60 [] = some (oneMinuteFinal, oneMinuteTrace) ∧
    countTick oneMinuteTrace = 61 ∧
    oneMinuteTrace.head? = some (Event.tick 60 60) ∧
    (61 : ℕ) ≠ 60 :=
  ⟨by norm_num [TimerThread.init, pyInt, st60], by decide, by decide,
    by decide, by decide⟩

set_option maxRecDepth 1000000 in
/-- Claim C5 (amended): for an engine constructed with duration 1 minute,
an uninterrupted run emits exactly 61 `on_tick` calls with `remaining`
descending 60 to 0 (one per countdown second plus the final zero tick),
followed by exactly one `on_finish`, and no `on_warning`. -/
theorem one_minute_run_spec :
    TimerThread.init 1 = st60 ∧
    TimerThread.run 70 st60 []
      = some (oneMinuteFinal,
          (List.range 61).map (fun i => Event.tick (60 - (i : ℤ)) 60)
            ++ [Event.finish]) ∧
    countFinish oneMinuteTrace = 1 ∧
    countWarnAll oneMinuteTrace = 0 :=
  ⟨by norm_num [TimerThread.init, pyInt, st60], by decide, by decide,
    by decide⟩

set_option maxRecDepth 1000000 in
/-- Counterexample to C6: in the full 6-minute session the engine never
invokes `on_warning(300)` — the single warning callback carries the
threshold in *minutes* (`on_warning(5)`, source line 155), not in
seconds. -/
theorem warning_argument_is_minutes_not_seconds :
    TimerThread.init 6 = st360 ∧
    TimerThread.run 400 st360 [] = some (sixMinuteFinal, sixMinuteTrace) ∧
    countWarn 300 sixMinuteTrace = 0 ∧
    countWarnAll sixMinuteTrace = 1 ∧
    sixMinuteTrace.get? 60 = some (Event.warning 5) :=
  ⟨by norm_num [TimerThread.init, pyInt, st360], by decide, by decide,
    by decide, by decide⟩

set_option maxRecDepth 1000000 in
/-- Claim C6 (amended): the `on_warning` observer callback receives the
threshold expressed in minutes: for a 6-minute session, when
`remaining_seconds == 300` the engine invokes `on_warning(5)` exactly
once, immediately followed by `on_tick(300, 360)` for that second. -/
theorem six_minute_warning_spec :
    TimerThread.init 6 = st360 ∧
    TimerThread.run 400 st360 [] = some (sixMinuteFinal, sixMinuteTrace) ∧
    countWarn 5 sixMinuteTrace = 1 ∧
    sixMinuteTrace.get? 60 = some (Event.warning 5) ∧
    sixMinuteTrace.get? 61 = some (Event.tick 300 360) :=
  ⟨by norm_num [TimerThread.init, pyInt, st360], by decide, by decide,
    by decide, by decide⟩

/-- Claim C8: `remaining_seconds` decreases only through the progression
loop's decrement step while running and not paused: `pause()` only
toggles the `paused` flag (counters untouched, so `resume` — a second
`pause()` — also leaves them untouched); a paused poll interval leaves
the engine state completely unchanged (the remaining run is identical to
one without that poll); the non-paused loop iteration decrements
`remaining_seconds` by exactly 1 and preserves `total_seconds`;
`add_time` with a positive amount never decreases `remaining_seconds`;
and `stop()` leaves both counters unchanged. -/
theorem countdown_decrement_discipline :
    (∀ t : TimerThread,
      t.pause.remaining_seconds = t.remaining_seconds ∧
      t.pause.total_seconds = t.total_seconds ∧
      t.pause.paused = !t.paused ∧
      t.pause.running = t.running ∧
      t.pause.stop_event = t.stop_event) ∧
    (∀ (n : ℕ) (t : TimerThread) (s : List (List Cmd)),
      t.paused = true → 0 < t.remaining_seconds → t.stop_event = false →
      runFrom (n + 1) t ([] :: s) = runFrom n t s) ∧
    (∀ t : TimerThread, t.paused = false →
      (loopIter t).1.remaining_seconds = t.remaining_seconds - 1 ∧
      (loopIter t).1.total_seconds = t.total_seconds) ∧
    (∀ (t : TimerThread) (m : ℤ), 0 < m →
      t.remaining_seconds ≤ (t.add_time m).remaining_seconds) ∧
    (∀ t : TimerThread,
      t.stop.remaining_seconds = t.remaining_seconds ∧
      t.stop.total_seconds = t.total_seconds) := by
  refine ⟨fun t => ⟨rfl, rfl, rfl, rfl, rfl⟩, ?_, fun t _ => ⟨rfl, rfl⟩,
    ?_, fun t => ⟨rfl, rfl⟩⟩
  · intro n t s hp hr hs
    simp [runFrom, applyCmds, hp, hr, hs]
  · intro t m hm
    show t.remaining_seconds ≤ t.remaining_seconds + m * 60
    omega

theorem countdown_decrement_discipline_witness :
    statePaused.pause.remaining_seconds = statePaused.remaining_seconds ∧
    runFrom 2 statePaused ([] :: [[Cmd.stop]])
      = runFrom 1 statePaused [[Cmd.stop]] ∧
    statePaused.remaining_seconds
      ≤ (statePaused.add_time 5).remaining_seconds :=
  ⟨(countdown_decrement_discipline.1 statePaused).1,
    countdown_decrement_discipline.2.1 1 statePaused [[Cmd.stop]] rfl
      (by decide) rfl,
    countdown_decrement_discipline.2.2.2.1 statePaused 5 (by decide)⟩

/-- Counterexample to C9: a zero duration is not rejected — the
constructor performs no validation and happily builds an engine with
`total_seconds = remaining_seconds = 0`, and running it immediately emits
the final tick and the finish event instead of reporting a caller
error. -/
theorem init_zero_duration_not_rejected :
    TimerThread.init 0
      = { total_seconds := 0, remaining_seconds := 0,
          running := false, paused := false, stop_event := false } ∧
    TimerThread.run 5
      { total_seconds := 0, remaining_seconds := 0,
        running := false, paused := false, stop_event := false } []
      = some ({ total_seconds := 0, remaining_seconds := 0,
                running := false, paused := false, stop_event := false },
              [Event.tick 0 0, Event.finish]) :=
  ⟨by norm_num [TimerThread.init, pyInt], by decide⟩

/-- Claim C9 (amended): construction performs no validation — every
duration `d` (including zero and negative) is accepted and yields
`total_seconds = remaining_seconds = int(d*60)` (truncation toward zero)
with all flags cleared; for every duration `d > 0` this equals
`floor(d*60)`, so `total_seconds == remainingSeconds == floor(d*60)`. -/
theorem init_spec (d : ℚ) :
    (TimerThread.init d).total_seconds = pyInt (d * 60) ∧
    (TimerThread.init d).remaining_seconds = pyInt (d * 60) ∧
    (TimerThread.init d).running = false ∧
    (TimerThread.init d).paused = false ∧
    (TimerThread.init d).stop_event = false ∧
    (0 < d → pyInt (d * 60) = ⌊d * 60⌋) := by
  refine ⟨rfl, rfl, rfl, rfl, rfl, fun hd => ?_⟩
  have hnn : (0 : ℚ) ≤ d * 60 := by
    have h60 : (0 : ℚ) ≤ 60 := by norm_num
    exact mul_nonneg hd.le h60
  unfold pyInt
  rw [if_pos hnn]

theorem init_spec_witness :
    (TimerThread.init (3/2 : ℚ)).total_seconds = pyInt ((3/2 : ℚ) * 60) ∧
    ((0 : ℚ) < 3/2) ∧
    pyInt ((3/2 : ℚ) * 60) = ⌊((3/2 : ℚ) * 60)⌋ :=
  ⟨(init_spec (3/2)).1, by norm_num,
    (init_spec (3/2)).2.2.2.2.2 (by norm_num)⟩
